import Mathlib

/-!
A shallow embedding in Lean 4 of the sopel-kpopsundry plugin
(`sopel_modules/kpopsundry/kpopsundry.py`), covering the pieces of the
program that the verified properties are about:

* the OGS rank formatter and the player/game lookup helpers,
* the strim OAuth client with its expired-token refresh-and-retry logic,
* the live-status watcher `_check_live` together with `_next_strim` and
  the `strim` chat command,
* the remember/forget keyword responder with its regex-based matching,
  cooldown window and admin commands.

Network traffic, the host bot object and the SQLite store are abstracted
as explicit inputs (oracle values describing what the external call would
have returned); the control flow, string formatting and state updates of
the Python source are translated directly.
-/

namespace Kps

/-! ## OGS rank formatting and lookups (`ogs_display_rank`,
`get_ogs_user_api`, `get_ogs_game_api`) -/

/-- Translation of `ogs_display_rank`: `val < 30` formats as Kyu with value
`30 - val`, otherwise as Dan with value `(val - 30) + 1`.  Python ints are
modelled as `Int`. -/
def ogs_display_rank (val : Int) : String :=
  if val < 30 then
    toString (30 - val) ++ " Kyu"
  else
    toString (val - 30 + 1) ++ " Dan"

/-- One player record of the OGS players API (the fields the code reads). -/
structure OgsPlayer where
  username : String
  id : Nat
  ranking : Int
deriving Repr, DecidableEq

/-- Shape of the JSON body returned by the OGS player endpoint, as the code
distinguishes it: a listing with a `count` and a first result (the code only
ever reads `results[0]`, which exists whenever `count > 0`), a single record
carrying an `id`, or anything else. -/
inductive OgsUserData where
  | listing (count : Nat) (first : OgsPlayer)
  | single (p : OgsPlayer)
  | other
deriving Repr, DecidableEq

/-- Result of `ogs_get` as seen by its callers: either an `HTTPError` raised
by `raise_for_status` (carrying the HTTP status code) or a parsed body. -/
abbrev OgsResp (α : Type) := Except Nat α

/-- Message formatting for a resolved player, as in `get_ogs_user_api`. -/
def ogs_player_msg (p : OgsPlayer) : String :=
  p.username ++ " (" ++ ogs_display_rank p.ranking ++ ") | " ++
    "https://online-go.com/user/view/" ++ toString p.id

/-- Translation of `get_ogs_user_api`: the surrounding `try`/`except
HTTPError` catches every HTTP error status and returns the friendly
not-found string; otherwise the body is dispatched on its shape. -/
def get_ogs_user_api (resp : OgsResp OgsUserData) (user : String) : String :=
  match resp with
  | .error _ => "No such player " ++ user
  | .ok data =>
    match data with
    | .listing count first =>
      if count > 0 then
        ogs_player_msg first
      else
        "Could not fetch info for OGS player " ++ user
    | .single p => ogs_player_msg p
    | .other => "Could not fetch info for OGS player " ++ user

/-- Fields of the OGS game endpoint body that `get_ogs_game_api` reads. -/
structure OgsGame where
  id : Nat
  name : String
  ranked : Bool
  blackUsername : String
  blackRanking : Int
  whiteUsername : String
  whiteRanking : Int
deriving Repr, DecidableEq

/-- Translation of `get_ogs_game_api`: again any `HTTPError` yields the
friendly not-found string, a success is formatted into the game summary. -/
def get_ogs_game_api (resp : OgsResp OgsGame) (game : String) : String :=
  match resp with
  | .error _ => "No such game " ++ game
  | .ok data =>
    data.name ++ " (" ++ (if data.ranked then "Ranked" else "Unranked") ++
      ") | " ++
      data.blackUsername ++ " (" ++ ogs_display_rank data.blackRanking ++
      ") vs " ++
      data.whiteUsername ++ " (" ++ ogs_display_rank data.whiteRanking ++
      ") | " ++ "https://online-go.com/game/" ++ toString data.id

/-! ## Strim OAuth client (`kps_strim_get` / `kps_strim_post` /
`kps_strim_put`, `_kps_expired_token`) -/

/-- Outcome of one attempt of an `oauth.get/post/put` call: either a
response with an HTTP status code, or a raised `TokenExpiredError`. -/
inductive OauthOutcome where
  | resp (status : Nat)
  | expired
deriving Repr, DecidableEq

/-- Oracle describing the external world for one `kps_strim_*` call: what
the first attempt yields, the token `oauth.fetch_token` would return in
`_kps_expired_token`, and what a retried attempt yields. -/
structure OauthEnv where
  first : OauthOutcome
  fetched : String
  second : OauthOutcome
deriving Repr, DecidableEq

/-- Errors a `kps_strim_*` call can raise to its caller: an uncaught
`TokenExpiredError` from the retry, or an `HTTPError` from
`raise_for_status`. -/
inductive StrimError where
  | tokenExpired
  | httpError (status : Nat)
deriving Repr, DecidableEq

/-- Observable events of one `kps_strim_*` call: an HTTP request attempt,
or a re-authentication (`_kps_expired_token` fetching a fresh token). -/
inductive StrimEvent where
  | attempt
  | reauth
deriving Repr, DecidableEq

/-- Translation of `r.raise_for_status()`: statuses `400 ≤ s` raise
`HTTPError`, others return the response (modelled by its status). -/
def raise_for_status (s : Nat) : Except StrimError Nat :=
  if 400 ≤ s then .error (.httpError s) else .ok s

/-- Common body of `kps_strim_get`/`kps_strim_post`/`kps_strim_put`:
try the request once; on `TokenExpiredError`, run `_kps_expired_token`
(which stores the freshly fetched token in `sopel.memory`) and retry once,
with a second `TokenExpiredError` propagating uncaught; finally
`raise_for_status`.  Returns the call result, the token stored in memory
afterwards, and the trace of attempts/re-authentications. -/
def kps_strim_request (env : OauthEnv) (token : String) :
    Except StrimError Nat × String × List StrimEvent :=
  match env.first with
  | .resp s => (raise_for_status s, token, [.attempt])
  | .expired =>
    match env.second with
    | .resp s => (raise_for_status s, env.fetched, [.attempt, .reauth, .attempt])
    | .expired => (.error .tokenExpired, env.fetched, [.attempt, .reauth, .attempt])

/-- `kps_strim_get sopel url`: the URL does not influence the control flow,
which is entirely `kps_strim_request`. -/
def kps_strim_get (env : OauthEnv) (token : String) (_url : String) :
    Except StrimError Nat × String × List StrimEvent :=
  kps_strim_request env token

/-- `kps_strim_post sopel url data`: same retry structure, the posted JSON
body is opaque to the control flow. -/
def kps_strim_post (env : OauthEnv) (token : String) (_url : String)
    (_data : Option String) : Except StrimError Nat × String × List StrimEvent :=
  kps_strim_request env token

/-- `kps_strim_put sopel url data`: same retry structure. -/
def kps_strim_put (env : OauthEnv) (token : String) (_url : String)
    (_data : String) : Except StrimError Nat × String × List StrimEvent :=
  kps_strim_request env token

/-! ## Live watcher (`_check_live`, `_next_strim`, `strim`, `setup`) -/

/-- A Python `timedelta` as `format_timedelta` reads it: its normalised
`days` component (an integer, possibly negative) and its `seconds`
component (`0 ≤ seconds < 86400`, not enforced here). -/
structure Timedelta where
  days : Int
  seconds : Nat
deriving Repr, DecidableEq

/-- Translation of `format_timedelta`: collect non-zero components with
singular/plural unit names and join them with ", ". -/
def format_timedelta (td : Timedelta) : String :=
  let strs : List String :=
    if td.days ≠ 0 then
      if td.days > 1 then [toString td.days ++ " days"]
      else [toString td.days ++ " day"]
    else []
  let hours := td.seconds / 3600
  let rest := td.seconds % 3600
  let strs := strs ++
    (if hours ≠ 0 then
      if hours > 1 then [toString hours ++ " hours"]
      else [toString hours ++ " hour"]
    else [])
  let minutes := rest / 60
  let seconds := rest % 60
  let strs := strs ++
    (if minutes ≠ 0 then
      if minutes > 1 then [toString minutes ++ " minutes"]
      else [toString minutes ++ " minute"]
    else [])
  let strs := strs ++
    (if seconds ≠ 0 then
      if seconds > 1 then [toString seconds ++ " seconds"]
      else [toString seconds ++ " second"]
    else [])
  String.intercalate ", " strs

/-- Translation of `short_url`: with a configured Google API key the URL is
passed through the shortener service (modelled by the oracle function
`googl`), otherwise it is returned unchanged. -/
def short_url (key : Option String) (googl : String → String)
    (url : String) : String :=
  match key with
  | some _ => googl url
  | none => url

/-- The fields of one strim record (`results[0]` of the strims listing)
that `_next_strim` reads.  The parsed timestamp is abstracted by its
difference from the current time (`timestamp - utcnow`) and by its
already-formatted KST display string, since datetime parsing and timezone
conversion happen in external libraries. -/
structure StrimEntry where
  title : String
  tdFromNow : Timedelta
  kstDisplay : String
  channel : String
  slug : String
deriving Repr, DecidableEq

/-- The strims listing body: its `count` and its first result (only read
when `count` is non-zero). -/
structure StrimsData where
  count : Nat
  first : StrimEntry
deriving Repr, DecidableEq

/-- The channel detail body: the code reads only `name`. -/
structure ChannelData where
  name : String
deriving Repr, DecidableEq

/-- Ways the status probe of `_check_live` can fail before a parsed body is
available: a network failure in `requests.get`, an HTTP error status from
`raise_for_status`, or an XML parse failure in `ET.fromstring`. -/
inductive ProbeErr where
  | network
  | httpStatus (s : Nat)
  | parseError
deriving Repr, DecidableEq

/-- Oracle for one poll of the live watcher: what the status probe yields
(`Bool` = a `.//active` element was found), what the two `kps_strim_get`
calls inside `_next_strim` yield, and the URL-shortener configuration. -/
structure LiveEnv where
  probe : Except ProbeErr Bool
  strimsResp : Except StrimError StrimsData
  channelResp : Except StrimError ChannelData
  googleApiKey : Option String
  googl : String → String

/-- Exceptions that propagate out of `_check_live` or `strim`: a probe
failure, or a `kps_strim_*` error raised inside `_next_strim`. -/
inductive CheckErr where
  | probe (e : ProbeErr)
  | strim (e : StrimError)
deriving Repr, DecidableEq

/-- Translation of `_next_strim`: fetch the strims listing (errors from
`kps_strim_get` propagate — nothing is caught here); with a non-zero count
fetch the channel detail (errors again propagate) and format the three
messages, otherwise report no scheduled strims. -/
def next_strim (env : LiveEnv) : Except StrimError (List String) :=
  match env.strimsResp with
  | .error e => .error e
  | .ok data =>
    if data.count ≠ 0 then
      match env.channelResp with
      | .error e => .error e
      | .ok chan =>
        .ok ["Next strim in " ++ format_timedelta data.first.tdFromNow,
             data.first.kstDisplay ++ " - " ++ chan.name ++ ": " ++
               data.first.title,
             short_url env.googleApiKey env.googl
               ("https://strim.pmrowla.com/strims/" ++ data.first.slug ++ "/")]
    else
      .ok ["No scheduled strims"]

/-- Translation of `_check_live`.  Input `live` is the stored
`sopel.memory['kps_strim']['live']` before the call; the first component
of the result is the stored value after the call (unchanged whenever an
exception propagates, because the assignment is never reached), the second
is the list of broadcast messages or the escaped exception.  In the
active branch the messages are appended only when the state was DOWN and
`notify` is set; in the inactive branch `_next_strim` runs before the
state assignment, so its failure aborts both the assignment and the
broadcast. -/
def check_live (env : LiveEnv) (notify live : Bool) :
    Bool × Except CheckErr (List String) :=
  match env.probe with
  | .error e => (live, .error (.probe e))
  | .ok active =>
    if active then
      if !live && notify then
        (true, .ok ["Strim is now live",
                    short_url env.googleApiKey env.googl
                      "https://strim.pmrowla.com/"])
      else
        (true, .ok [])
    else
      if live && notify then
        match next_strim env with
        | .error e => (live, .error (.strim e))
        | .ok ns => (false, .ok ("Strim finished" :: ns))
      else
        (false, .ok [])

/-- Translation of the `strim` chat command: run `_check_live` with
`notify=False` (its memory write persists even if the later part fails),
then build the manual reply from the freshly stored state; in the DOWN
case this calls `_next_strim` again, whose errors propagate. -/
def strim (env : LiveEnv) (live : Bool) :
    Bool × Except CheckErr (List String) :=
  match check_live env false live with
  | (live1, .error e) => (live1, .error e)
  | (live1, .ok _) =>
    if live1 then
      (live1, .ok ["Strim is live",
                   short_url env.googleApiKey env.googl
                     "https://strim.pmrowla.com/"])
    else
      match next_strim env with
      | .error e => (live1, .error (.strim e))
      | .ok ns => (live1, .ok ("Strim is down" :: ns))

/-- Translation of `sopel.memory['kps_strim']['live'] = False` in
`setup`: the initial stored live flag. -/
def setup_live : Bool := false

/-! ## Remember/forget keyword responder (`remember_respond`, `remember`,
`forget`, `remember_list`) -/

/-- Python's `\s` class over the ASCII whitespace characters
(space, tab, newline, carriage return, vertical tab, form feed). -/
def isSpacePy (c : Char) : Bool :=
  c = ' ' || c = '\t' || c = '\n' || c = '\r' || c = '\x0b' || c = '\x0c'

/-- Python's `str.strip()`: drop whitespace from both ends. -/
def pyStrip (l : List Char) : List Char :=
  ((l.dropWhile isSpacePy).reverse.dropWhile isSpacePy).reverse

/-- Python's `str.split(sep, 1)` when the separator occurs: the part
before the first occurrence and the part after it (`none` when the
separator is absent). -/
def splitFirst (sep : Char) : List Char → Option (List Char × List Char)
  | [] => none
  | c :: cs =>
    if c = sep then some ([], cs)
    else (splitFirst sep cs).map (fun p => (c :: p.1, p.2))

/-- One token of the compiled trigger-phrase fragment: a literal character
or the `.` any-character metacharacter. -/
inductive RTok where
  | lit (c : Char)
  | dot
deriving Repr, DecidableEq

/-- Token-versus-character matching under `re.I`: literals compare
case-insensitively, `.` matches every character except a newline. -/
def tokMatch : RTok → Char → Bool
  | .lit c, d => c.toLower = d.toLower
  | .dot, d => d ≠ '\n'

/-- Compilation of a stored phrase as it is interpolated, unescaped, into
the pattern `^(.*\s)?(?P<remember>{phrase})(\s.*)?$` of
`remember_respond`.  The model covers the fragment alphabet the verified
properties exercise: alphanumeric characters and spaces are regex
literals, `.` is the any-character metacharacter, and any other character
(for instance an unbalanced `(`, which makes the whole pattern fail to
compile with `re.error`) yields `none`; metacharacters that would compile
to further regex features (`*`, `+`, …) are outside the modelled
fragment. -/
def compilePhrase : List Char → Option (List RTok)
  | [] => some []
  | c :: cs =>
    if c.isAlphanum || c = ' ' then
      (compilePhrase cs).map (fun ts => .lit c :: ts)
    else if c = '.' then
      (compilePhrase cs).map (fun ts => .dot :: ts)
    else
      none

/-- A compiled phrase against a segment of the line: each token consumes
exactly one character. -/
def seqMatch : List RTok → List Char → Bool
  | [], [] => true
  | t :: ts, c :: cs => tokMatch t c && seqMatch ts cs
  | _, _ => false

/-- All decompositions of a list into a prefix/suffix pair. -/
def splits (l : List Char) : List (List Char × List Char) :=
  (List.range (l.length + 1)).map (fun i => (l.take i, l.drop i))

/-- No newline character present (`.` in `.*` cannot cross a newline). -/
def noNewline (l : List Char) : Bool := l.all (fun c => c ≠ '\n')

/-- What `(.*\s)?` accepts as the part of the line before the phrase:
empty, or ending in a whitespace character with no newline before it. -/
def preOk (pre : List Char) : Bool :=
  match pre.reverse with
  | [] => true
  | c :: rest => isSpacePy c && noNewline rest

/-- What `(\s.*)?$` accepts as the part of the line after the phrase:
empty, or starting with a whitespace character followed by no newline. -/
def postOk : List Char → Bool
  | [] => true
  | c :: rest => isSpacePy c && noNewline rest

/-- Semantics of `re.match(r'^(.*\s)?(?P<remember>{p})(\s.*)?$', line,
re.I)` for a compiled phrase: some decomposition of the line into
pre/mid/post with the phrase matching the middle and both boundary groups
satisfied. -/
def remember_matches (toks : List RTok) (line : List Char) : Bool :=
  (splits line).any (fun pm =>
    preOk pm.1 &&
      (splits pm.2).any (fun mp => seqMatch toks mp.1 && postOk mp.2))

/-- The per-phrase test of `remember_respond`: compile the stored phrase
into the anchored pattern and match the line; `none` models the `re.error`
raised for a phrase that breaks the pattern. -/
def rememberMatch (phrase line : String) : Option Bool :=
  match compilePhrase phrase.toList with
  | none => none
  | some toks => some (remember_matches toks line.toList)

/-- `re.error` escaping from `remember_respond`. -/
inductive RegexErr where
  | invalid
deriving Repr, DecidableEq

/-- The slice of `sopel.memory` the responder uses: the
`last_remember` timestamp (absent before the first automatic emission) and
the `remember` mapping (an insertion-ordered phrase→response table, as a
Python dict). -/
structure RespState where
  lastRemember : Option Int
  remembers : List (String × String)
deriving Repr, DecidableEq

/-- Dict lookup `memory['remember'].get(k)`. -/
def lookupAssoc (k : String) : List (String × String) → Option String
  | [] => none
  | (k', v) :: rest => if k' = k then some v else lookupAssoc k rest

/-- Dict assignment `memory['remember'][k] = v`: update in place when the
key exists, append otherwise. -/
def updateAssoc (k v : String) : List (String × String) → List (String × String)
  | [] => [(k, v)]
  | (k', v') :: rest =>
    if k' = k then (k, v) :: rest else (k', v') :: updateAssoc k v rest

/-- Dict deletion `del memory['remember'][k]`. -/
def removeAssoc (k : String) : List (String × String) → List (String × String)
  | [] => []
  | (k', v) :: rest => if k' = k then rest else (k', v) :: removeAssoc k rest

/-- Translation of `add_remember` restricted to the in-memory cache (the
durable table mirrors the same mutation). -/
def add_remember (k v : String) (st : RespState) : RespState :=
  { st with remembers := updateAssoc k v st.remembers }

/-- The matching loop of `remember_respond`: every stored phrase is tested
against the line in turn; an invalid phrase raises out of the loop
(regardless of earlier matches), valid matching phrases are collected with
their responses. -/
def collectMatches (line : String) :
    List (String × String) → Except RegexErr (List (String × String))
  | [] => .ok []
  | (p, r) :: rest =>
    match rememberMatch p line with
    | none => .error .invalid
    | some true => (collectMatches line rest).map (fun ms => (p, r) :: ms)
    | some false => collectMatches line rest

/-- Translation of `remember_respond`: if a previous automatic emission is
recorded and the line's timestamp is within 30 seconds of it, return with
no output and no state change; otherwise collect the matching phrases and,
when at least one matched, record the emission time and emit the response
of one match chosen by the random source (modelled by the index
`rand`). -/
def remember_respond (rand : Nat) (t : Int) (line : String)
    (st : RespState) : Except RegexErr (RespState × Option String) :=
  let go : Except RegexErr (RespState × Option String) :=
    match collectMatches line st.remembers with
    | .error e => .error e
    | .ok [] => .ok (st, none)
    | .ok (m :: ms) =>
      .ok ({ st with lastRemember := some t },
           some ((m :: ms).getD (rand % (m :: ms).length) m).2)
  match st.lastRemember with
  | some l => if t - l < 30 then .ok (st, none) else go
  | none => go

/-- Translation of the `remember` admin command: ignore lines older than
the 15-second replay window; otherwise, when the argument carries a colon,
strip, split at the first colon, store the trigger/response pair and
reply. -/
def remember_cmd (now t : Int) (args : Option String) (st : RespState) :
    RespState × Option String :=
  if t < now - 15 then (st, none)
  else
    match args with
    | none => (st, none)
    | some a =>
      if !a.isEmpty && a.toList.contains ':' then
        match splitFirst ':' (pyStrip a.toList) with
        | some (k, v) =>
          (add_remember (String.mk (pyStrip k)) (String.mk (pyStrip v)) st,
           some "I will remember that")
        | none => (st, none)
      else (st, none)

/-- Translation of the `forget` admin command: ignore replayed lines and
lines from the bot itself; otherwise delete the stored phrase when its
response is present (and truthy) and reply accordingly. -/
def forget_cmd (now t : Int) (nickIsSelf : Bool) (args : Option String)
    (st : RespState) : RespState × Option String :=
  if t < now - 15 || nickIsSelf then (st, none)
  else
    match args with
    | none => (st, none)
    | some a =>
      if a.isEmpty then (st, none)
      else
        let key := String.mk (pyStrip a.toList)
        match lookupAssoc key st.remembers with
        | some r =>
          if r.isEmpty then (st, some "I don\x27t know about that")
          else ({ st with remembers := removeAssoc key st.remembers },
                some "I will forget that")
        | none => (st, some "I don\x27t know about that")

/-- Translation of the `rlist` admin command: join the stored phrases. -/
def remember_list (st : RespState) : String :=
  String.intercalate ", " (st.remembers.map Prod.fst)

/-- Replace only the `last_remember` slot of the memory. -/
def setLast (st : RespState) (l : Option Int) : RespState :=
  { st with lastRemember := l }

end Kps

/-! ### Theorems for the OGS formatter -/

/-- C8: `ogs_display_rank` maps every integer below 30 to `{30-val} Kyu`
and every integer of 30 or above to `{val-29} Dan`; in particular 29 gives
"1 Kyu", 30 gives "1 Dan" and 0 gives "30 Kyu". -/
theorem C8_ogs_display_rank_tiers :
    (∀ val : Int, val < 30 →
      Kps.ogs_display_rank val = toString (30 - val) ++ " Kyu") ∧
    (∀ val : Int, 30 ≤ val →
      Kps.ogs_display_rank val = toString (val - 29) ++ " Dan") ∧
    Kps.ogs_display_rank 29 = "1 Kyu" ∧
    Kps.ogs_display_rank 30 = "1 Dan" ∧
    Kps.ogs_display_rank 0 = "30 Kyu" := by
  refine ⟨fun val h => by simp [Kps.ogs_display_rank, h], fun val h => ?_, ?_, ?_, ?_⟩
  · have h' : ¬ val < 30 := by omega
    have : val - 30 + 1 = val - 29 := by omega
    simp [Kps.ogs_display_rank, h', this]
  · rfl
  · rfl
  · rfl

/-- Witness for C8 at concrete inputs 29 and 30. -/
theorem C8_ogs_display_rank_tiers_witness :
    Kps.ogs_display_rank 29 = toString (30 - (29 : Int)) ++ " Kyu" ∧
    Kps.ogs_display_rank 30 = toString ((30 : Int) - 29) ++ " Dan" :=
  ⟨C8_ogs_display_rank_tiers.1 29 (by decide),
   C8_ogs_display_rank_tiers.2.1 30 (by decide)⟩

/-! ### Theorems for the strim OAuth client -/

/-- C1: for each of `kps_strim_get`/`kps_strim_post`/`kps_strim_put`, a
`TokenExpiredError` on the first attempt causes exactly one
re-authentication followed by exactly one retry (the trace is precisely
attempt, reauth, attempt — in particular no third attempt), the stored
token afterwards is the newly fetched one, and if the retry also raises
the expiry signal that second failure is surfaced to the caller. -/
theorem C1_strim_retry_once (env : Kps.OauthEnv) (token url : String)
    (dataPost : Option String) (dataPut : String)
    (h : env.first = .expired) :
    (Kps.kps_strim_get env token url =
      ((if env.second = .expired then .error .tokenExpired
        else match env.second with
          | .resp s => Kps.raise_for_status s
          | .expired => .error .tokenExpired),
       env.fetched, [.attempt, .reauth, .attempt]) ∧
     Kps.kps_strim_post env token url dataPost = Kps.kps_strim_get env token url ∧
     Kps.kps_strim_put env token url dataPut = Kps.kps_strim_get env token url) ∧
    ((Kps.kps_strim_get env token url).2.2.count .reauth = 1 ∧
     (Kps.kps_strim_get env token url).2.2.count .attempt = 2) := by
  cases env with
  | mk first fetched second =>
    cases first with
    | resp s => simp at h
    | expired =>
      cases second with
      | resp s =>
        simp [Kps.kps_strim_get, Kps.kps_strim_post, Kps.kps_strim_put,
          Kps.kps_strim_request, List.count_cons]
      | expired =>
        simp [Kps.kps_strim_get, Kps.kps_strim_post, Kps.kps_strim_put,
          Kps.kps_strim_request, List.count_cons]

/-- Witness for C1: a concrete environment whose first attempt reports an
expired token and whose retry also does. -/
theorem C1_strim_retry_once_witness :
    Kps.kps_strim_get ⟨.expired, "tok2", .expired⟩ "tok1" "u" =
      (.error .tokenExpired, "tok2", [.attempt, .reauth, .attempt]) :=
  ((C1_strim_retry_once ⟨.expired, "tok2", .expired⟩ "tok1" "u" none "" rfl).1.1).trans
    (by rfl)

/-! ### Theorems for the OGS lookups -/

/-- Counterexample for C5: at the non-404 HTTP error status 500, the player
and game lookups still produce the friendly not-found message rather than
surfacing the raw error text — contradicting the claim that a non-404
status surfaces the raw error instead of the friendly message. -/
theorem C5_counterexample_500_is_friendly :
    Kps.get_ogs_user_api (.error 500) "alice" = "No such player alice" ∧
    Kps.get_ogs_game_api (.error 500) "42" = "No such game 42" :=
  ⟨rfl, rfl⟩

/-- C5 (amended): for the player and game lookup commands, every HTTP error
status — 404 and non-404 alike — is converted into the friendly not-found
message; the raw error text is never surfaced by these lookups. -/
theorem C5_lookup_http_errors_friendly :
    (∀ (status : Nat) (user : String),
      Kps.get_ogs_user_api (.error status) user = "No such player " ++ user) ∧
    (∀ (status : Nat) (game : String),
      Kps.get_ogs_game_api (.error status) game = "No such game " ++ game) :=
  ⟨fun _ _ => rfl, fun _ _ => rfl⟩

/-! ### Theorems for the live watcher -/

/-- Counterexample for C2: the down-transition half of the claim does not
hold unconditionally — a poll that observes no active element while the
state is LIVE, but whose accompanying schedule lookup fails (HTTP 502),
emits no went-down event at all and leaves the state LIVE, contradicting
"a poll observing no active element while the state is LIVE emits exactly
one went-down event". -/
theorem C2_counterexample_down_poll_can_emit_nothing :
    Kps.check_live ⟨.ok false, .error (.httpError 502),
        .error (.httpError 502), none, id⟩ true true =
      (true, .error (.strim (.httpError 502))) := by
  rfl

/-- C2 (amended): the watcher is edge-triggered.  From the initial DOWN state set by
`setup`, a poll whose probe reports an active element emits exactly the one
went-live message pair and stores LIVE; a steady-state poll (probe result
equal to the stored flag) emits nothing; a poll observing no active element
while LIVE (with the schedule lookup succeeding) emits exactly one
went-down message list and stores DOWN. -/
theorem C2_edge_triggered :
    (∀ env : Kps.LiveEnv, env.probe = .ok true →
      Kps.check_live env true Kps.setup_live =
        (true, .ok ["Strim is now live",
                    Kps.short_url env.googleApiKey env.googl
                      "https://strim.pmrowla.com/"])) ∧
    (∀ (env : Kps.LiveEnv) (live : Bool), env.probe = .ok live →
      Kps.check_live env true live = (live, .ok [])) ∧
    (∀ (env : Kps.LiveEnv) (ns : List String), env.probe = .ok false →
      Kps.next_strim env = .ok ns →
      Kps.check_live env true true = (false, .ok ("Strim finished" :: ns))) := by
  refine ⟨fun env h => ?_, fun env live h => ?_, fun env ns h hns => ?_⟩
  · simp [Kps.check_live, h, Kps.setup_live]
  · cases live <;> simp [Kps.check_live, h]
  · simp [Kps.check_live, h, hns]

/-- Witness for C2 at concrete environments: a went-live poll from the
setup state, steady-state polls in both directions, and a went-down poll
with an empty schedule. -/
theorem C2_edge_triggered_witness :
    Kps.check_live ⟨.ok true, .error .tokenExpired, .error .tokenExpired,
        none, id⟩ true Kps.setup_live =
      (true, .ok ["Strim is now live", "https://strim.pmrowla.com/"]) ∧
    Kps.check_live ⟨.ok true, .error .tokenExpired, .error .tokenExpired,
        none, id⟩ true true = (true, .ok []) ∧
    Kps.check_live ⟨.ok false, .ok ⟨0, ⟨"", ⟨0, 0⟩, "", "", ""⟩⟩,
        .error .tokenExpired, none, id⟩ true true =
      (false, .ok ["Strim finished", "No scheduled strims"]) :=
  ⟨(C2_edge_triggered.1 _ rfl).trans (by rfl),
   C2_edge_triggered.2.1 _ true rfl,
   (C2_edge_triggered.2.2 _ ["No scheduled strims"] rfl rfl)⟩

/-- C3: when the status probe itself fails, the stored live flag is left
unchanged, no message is emitted, and the error is reported to the
caller. -/
theorem C3_probe_failure_noop (env : Kps.LiveEnv) (notify live : Bool)
    (e : Kps.ProbeErr) (h : env.probe = .error e) :
    Kps.check_live env notify live = (live, .error (.probe e)) := by
  simp [Kps.check_live, h]

/-- Witness for C3: a concrete network failure leaves the DOWN state in
place and surfaces the error. -/
theorem C3_probe_failure_noop_witness :
    Kps.check_live ⟨.error .network, .error .tokenExpired,
        .error .tokenExpired, none, id⟩ true false =
      (false, .error (.probe .network)) :=
  C3_probe_failure_noop _ true false .network rfl

/-- Counterexample for C4: on a poll that observes LIVE-to-DOWN (probe
reports no active element while the stored state is LIVE) with the
schedule lookup failing (HTTP 500 from the strims listing), the stored
state remains LIVE and no went-down message is emitted — the error
propagates instead, contradicting the claim that the transition event is
still emitted and the state still updated. -/
theorem C4_counterexample_lookup_failure_aborts :
    Kps.check_live ⟨.ok false, .error (.httpError 500),
        .error (.httpError 500), none, id⟩ true true =
      (true, .error (.strim (.httpError 500))) := by
  rfl

/-- C4 (amended): on a poll observing the LIVE-to-DOWN flip, a failure of
the schedule lookup aborts the transition entirely: the lookup error
propagates to the caller, no went-down event is emitted, and the stored
state remains LIVE. -/
theorem C4_schedule_failure_aborts_transition (env : Kps.LiveEnv)
    (e : Kps.StrimError) (h : env.probe = .ok false)
    (hns : Kps.next_strim env = .error e) :
    Kps.check_live env true true = (true, .error (.strim e)) := by
  simp [Kps.check_live, h, hns]

/-- Witness for C4 at the concrete failing environment. -/
theorem C4_schedule_failure_aborts_transition_witness :
    Kps.check_live ⟨.ok false, .error (.httpError 503),
        .error (.httpError 503), none, id⟩ true true =
      (true, .error (.strim (.httpError 503))) :=
  C4_schedule_failure_aborts_transition _ (.httpError 503) rfl rfl

/-- C10: the manual `strim` command runs the probe with `notify=False`,
which writes the observed boolean into the stored state while emitting no
transition message; consequently a subsequent timed poll that observes the
same probe result sees no change and emits nothing — the transition event
for a flip first observed by a manual check is never emitted by any
poll. -/
theorem C10_manual_check_swallows_transition (env env2 : Kps.LiveEnv)
    (b live0 : Bool) (h : env.probe = .ok b) (h2 : env2.probe = .ok b) :
    Kps.check_live env false live0 = (b, .ok []) ∧
    (Kps.strim env live0).1 = b ∧
    Kps.check_live env2 true b = (b, .ok []) := by
  have hc : Kps.check_live env false live0 = (b, .ok []) := by
    cases b <;> cases live0 <;> simp [Kps.check_live, h]
  refine ⟨hc, ?_, ?_⟩
  · cases b with
    | false =>
      cases hn : Kps.next_strim env <;> simp [Kps.strim, hc, hn]
    | true => simp [Kps.strim, hc]
  · cases b <;> simp [Kps.check_live, h2]

/-- Witness for C10: a flip to LIVE first observed by the manual command
is stored silently, and the following timed poll emits nothing. -/
theorem C10_manual_check_swallows_transition_witness :
    Kps.check_live ⟨.ok true, .error .tokenExpired, .error .tokenExpired,
        none, id⟩ false false = (true, .ok []) ∧
    (Kps.strim ⟨.ok true, .error .tokenExpired, .error .tokenExpired,
        none, id⟩ false).1 = true ∧
    Kps.check_live ⟨.ok true, .error .tokenExpired, .error .tokenExpired,
        none, id⟩ true true = (true, .ok []) :=
  C10_manual_check_swallows_transition _ _ true false rfl rfl

/-! ### Theorems for the keyword responder -/

/-- `splits` enumerates exactly the decompositions of a list into a
prefix/suffix pair. -/
theorem splits_mem_iff {l p q : List Char} :
    (p, q) ∈ Kps.splits l ↔ p ++ q = l := by
  constructor
  · intro h
    simp only [Kps.splits, List.mem_map, List.mem_range] at h
    obtain ⟨i, _, h2⟩ := h
    obtain ⟨hp, hq⟩ := Prod.mk.injEq .. ▸ h2
    rw [← hp, ← hq]
    exact List.take_append_drop i l
  · intro h
    simp only [Kps.splits, List.mem_map, List.mem_range]
    refine ⟨p.length, ?_, ?_⟩
    · rw [← h, List.length_append]; omega
    · rw [← h, List.take_left, List.drop_left]

/-- C6: trigger matching is whole-token bounded.  A compiled phrase
matches a line exactly when the line decomposes as pre/mid/post with the
phrase matching the middle and the `(.*\s)?` / `(\s.*)?` boundary groups
accepting the two sides (empty, i.e. a string edge, or delimited by
whitespace); concretely, the line "see you at the show tonight" matches
the stored trigger "show" and does not match the stored trigger "sho". -/
theorem C6_whole_token_matching :
    (∀ (toks : List Kps.RTok) (line : List Char),
      Kps.remember_matches toks line = true ↔
        ∃ pre mid post, pre ++ (mid ++ post) = line ∧
          Kps.preOk pre = true ∧ Kps.seqMatch toks mid = true ∧
          Kps.postOk post = true) ∧
    Kps.rememberMatch "show" "see you at the show tonight" = some true ∧
    Kps.rememberMatch "sho" "see you at the show tonight" = some false := by
  refine ⟨fun toks line => ?_, by decide, by decide⟩
  simp only [Kps.remember_matches, List.any_eq_true, Bool.and_eq_true]
  constructor
  · rintro ⟨⟨pre, rest⟩, hmem, hpre, ⟨mid, post⟩, hmem2, hseq, hpost⟩
    refine ⟨pre, mid, post, ?_, hpre, hseq, hpost⟩
    rw [splits_mem_iff.mp hmem2, splits_mem_iff.mp hmem]
  · rintro ⟨pre, mid, post, hline, hpre, hseq, hpost⟩
    exact ⟨(pre, mid ++ post), splits_mem_iff.mpr hline, hpre,
           ⟨(mid, post), splits_mem_iff.mpr rfl, hseq, hpost⟩⟩

/-- C9: stored phrases are interpolated unescaped into the pattern: the
phrase "a.c" matches the line "abc" (its `.` acts as a metacharacter,
while literal whole-word matching of the phrase text would reject the
line), and the phrase "(" makes the pattern fail to compile, so the
matcher — and `remember_respond` with such a phrase stored — raises
instead of returning a match decision. -/
theorem C9_unescaped_interpolation :
    Kps.rememberMatch "a.c" "abc" = some true ∧
    Kps.remember_matches ("a.c".toList.map Kps.RTok.lit) "abc".toList = false ∧
    Kps.rememberMatch "(" "abc" = none ∧
    Kps.remember_respond 0 0 "abc" ⟨none, [("(", "resp")]⟩ =
      .error .invalid :=
  ⟨by decide, by decide, by decide, by rfl⟩

/-- C7: automatic emissions observe the 30-second global cooldown — a line
within 30 seconds of the recorded last automatic emission produces no
response and leaves the whole state (including the timestamp) unchanged —
while the explicit `remember`/`forget`/`rlist` commands are entirely
insensitive to the cooldown timestamp: each commutes with overwriting the
`last_remember` slot, so no value of it can suppress them. -/
theorem C7_cooldown_and_commands :
    (∀ (rand : Nat) (t : Int) (line : String) (st : Kps.RespState) (l : Int),
      st.lastRemember = some l → t - l < 30 →
      Kps.remember_respond rand t line st = .ok (st, none)) ∧
    (∀ (now t : Int) (args : Option String) (st : Kps.RespState)
        (l : Option Int),
      Kps.remember_cmd now t args (Kps.setLast st l) =
        (Kps.setLast (Kps.remember_cmd now t args st).1 l,
         (Kps.remember_cmd now t args st).2)) ∧
    (∀ (now t : Int) (nickIsSelf : Bool) (args : Option String)
        (st : Kps.RespState) (l : Option Int),
      Kps.forget_cmd now t nickIsSelf args (Kps.setLast st l) =
        (Kps.setLast (Kps.forget_cmd now t nickIsSelf args st).1 l,
         (Kps.forget_cmd now t nickIsSelf args st).2)) ∧
    (∀ (st : Kps.RespState) (l : Option Int),
      Kps.remember_list (Kps.setLast st l) = Kps.remember_list st) := by
  refine ⟨fun rand t line st l h1 h2 => ?_, fun now t args st l => ?_,
    fun now t nickIsSelf args st l => ?_, fun st l => rfl⟩
  · simp [Kps.remember_respond, h1, h2]
  · cases st with
    | mk l0 rs =>
      simp only [Kps.remember_cmd, Kps.setLast, Kps.add_remember]
      split
      · rfl
      · cases args with
        | none => rfl
        | some a =>
          simp only
          split
          · cases h : Kps.splitFirst ':' (Kps.pyStrip a.toList) with
            | none => simp [h]
            | some kv => simp [h]
          · rfl
  · cases st with
    | mk l0 rs =>
      simp only [Kps.forget_cmd, Kps.setLast]
      split
      · rfl
      · cases args with
        | none => rfl
        | some a =>
          simp only
          split
          · rfl
          · cases h : Kps.lookupAssoc (String.mk (Kps.pyStrip a.toList)) rs with
            | none => simp [h]
            | some r =>
              simp only [h]
              split <;> rfl

/-- Witness for C7: a line ten seconds after the last automatic emission
is suppressed without a timestamp update, and the three commands behave
identically under a rewritten cooldown timestamp. -/
theorem C7_cooldown_and_commands_witness :
    Kps.remember_respond 0 110 "show" ⟨some 100, [("show", "hi")]⟩ =
      .ok (⟨some 100, [("show", "hi")]⟩, none) ∧
    Kps.remember_cmd 0 0 (some "a: b") (Kps.setLast ⟨none, []⟩ (some 5)) =
      (Kps.setLast (Kps.remember_cmd 0 0 (some "a: b") ⟨none, []⟩).1 (some 5),
       (Kps.remember_cmd 0 0 (some "a: b") ⟨none, []⟩).2) ∧
    Kps.forget_cmd 0 0 false (some "a") (Kps.setLast ⟨none, [("a", "b")]⟩ (some 5)) =
      (Kps.setLast (Kps.forget_cmd 0 0 false (some "a") ⟨none, [("a", "b")]⟩).1 (some 5),
       (Kps.forget_cmd 0 0 false (some "a") ⟨none, [("a", "b")]⟩).2) ∧
    Kps.remember_list (Kps.setLast ⟨some 3, [("a", "b")]⟩ none) =
      Kps.remember_list ⟨some 3, [("a", "b")]⟩ :=
  ⟨C7_cooldown_and_commands.1 0 110 "show" ⟨some 100, [("show", "hi")]⟩ 100
      rfl (by decide),
   C7_cooldown_and_commands.2.1 0 0 (some "a: b") ⟨none, []⟩ (some 5),
   C7_cooldown_and_commands.2.2.1 0 0 false (some "a") ⟨none, [("a", "b")]⟩
      (some 5),
   C7_cooldown_and_commands.2.2.2 ⟨some 3, [("a", "b")]⟩ none⟩
